import Mathlib

set_option autoImplicit false
set_option maxRecDepth 4000

/-!
Verification of the tcex Playbook key-value layer.

Shallow embedding of `tcex/playbook/playbook.py` (class `Playbook`).

Python dynamic values are embedded as `PyVal`; Python `None` is `PyVal.none`,
a Python `str` is `PyVal.str`, a Python `list` is `PyVal.list`.  Methods that
take `Optional[str]` arguments take `Option String`.  Methods that can raise
are embedded with `Except String`, the error payload being the exception
message.

The abstract base class `PlaybookABC` (regular expressions
`_variable_match`/`_variable_parse`, the type sets
`_variable_single_types`/`_variable_array_types`, the output-request index
builder `_parse_output_variables`, the store primitives
`_create`/`_create_array`/`create_raw`/`_read`/`_read_array`/`read_raw` and
the embedded resolver `_read_embedded`) is not part of the sources; those
definitions are modelled from the specification and are marked
`Modelled from the spec:` in their doc comments.
-/

/-- Embedded Python runtime value (the fragment of Python values the
Playbook layer manipulates: `None`, strings, integers and lists). -/
inductive PyVal where
  | none : PyVal
  | str : String → PyVal
  | int : Int → PyVal
  | list : List PyVal → PyVal
  deriving Repr

mutual

/-- Structural equality test for `PyVal` (written by hand because instance
derivation does not handle the nested `List`). -/
def PyVal.beq : PyVal → PyVal → Bool
  | PyVal.none, PyVal.none => true
  | PyVal.str a, PyVal.str b => a == b
  | PyVal.int a, PyVal.int b => a == b
  | PyVal.list as, PyVal.list bs => PyVal.beqList as bs
  | _, _ => false

/-- Element-wise `PyVal.beq` on lists. -/
def PyVal.beqList : List PyVal → List PyVal → Bool
  | [], [] => true
  | a :: as, b :: bs => PyVal.beq a b && PyVal.beqList as bs
  | _, _ => false

end

mutual

theorem PyVal.beq_iff : ∀ a b : PyVal, PyVal.beq a b = true ↔ a = b
  | PyVal.none, b => by cases b <;> simp [PyVal.beq]
  | PyVal.str a, b => by cases b <;> simp [PyVal.beq]
  | PyVal.int a, b => by cases b <;> simp [PyVal.beq]
  | PyVal.list as, b => by
      cases b <;> simp [PyVal.beq]
      exact PyVal.beqList_iff as _

theorem PyVal.beqList_iff : ∀ as bs : List PyVal, PyVal.beqList as bs = true ↔ as = bs
  | [], bs => by cases bs <;> simp [PyVal.beqList]
  | a :: as, bs => by
      cases bs with
      | nil => simp [PyVal.beqList]
      | cons b bs =>
          simp [PyVal.beqList, Bool.and_eq_true, PyVal.beq_iff a b,
            PyVal.beqList_iff as bs]

end

instance : DecidableEq PyVal := fun a b =>
  decidable_of_iff (PyVal.beq a b = true) (PyVal.beq_iff a b)

/-- Python `isinstance(v, list)` for embedded values. -/
def isListVal : PyVal → Bool
  | PyVal.list _ => true
  | _ => false

/-- Python `v is None` for embedded values. -/
def isNoneVal : PyVal → Bool
  | PyVal.none => true
  | _ => false

/-- Python `isinstance(v, str)` for embedded values. -/
def isStrVal : PyVal → Bool
  | PyVal.str _ => true
  | _ => false

/-- The ASCII whitespace characters removed by Python `str.strip()`. -/
def isPySpace (c : Char) : Bool :=
  c = ' ' || c = '\t' || c = '\n' || c = '\r' || c = '\x0b' || c = '\x0c'

/-- Remove trailing `isPySpace` characters from a character list. -/
def stripEnd (l : List Char) : List Char :=
  (l.reverse.dropWhile isPySpace).reverse

/-- Remove leading and trailing `isPySpace` characters. -/
def stripChars (l : List Char) : List Char :=
  stripEnd (l.dropWhile isPySpace)

/-- Python `str.strip()` (no-argument form): strip ASCII whitespace from
both ends of the string. -/
def pyStrip (s : String) : String :=
  String.mk (stripChars s.toList)

/-- Character class of the `job id` component of a variable: a decimal
digit (`\d` in the pattern). -/
def isDigitChar (c : Char) : Bool := c.isDigit

/-- Character class of the `name` component of a variable:
`[A-Za-z0-9_.-]`. -/
def isNameChar (c : Char) : Bool :=
  c.isAlphanum || c = '_' || c = '.' || c = '-'

/-- Character class of the `type` component of a variable: a word
character (`\w`). -/
def isTypeChar (c : Char) : Bool :=
  c.isAlphanum || c = '_'

/-- Result of parsing a playbook variable string: the dict
`{root, job_id, name, type}` built by `Playbook.parse_variable`. -/
structure ParsedVariable where
  root : String
  job_id : String
  name : String
  vtype : String
  deriving Repr, DecidableEq

/-- Modelled from the spec: the variable grammar
`#App:<job_id>:<name>!<type>` (`_variable_match` / `_variable_parse` live in
the abstract base class, which is not among the sources; §4.1 gives the
pattern `#App:\d+:[A-Za-z0-9_.\-]+!\w+`).

Try to parse one variable reference at the head of `l`; on success return
the parsed components together with the unconsumed remainder of `l`.
Each component is read with maximal munch, which matches the greedy
semantics of the regular-expression pattern because the three component
character classes exclude the delimiters `:` and `!`. -/
def tryParseVar (l : List Char) : Option (ParsedVariable × List Char) :=
  if l.take 5 ≠ ['#', 'A', 'p', 'p', ':'] then Option.none
  else
    let rest := l.drop 5
    let d := rest.takeWhile isDigitChar
    let r1 := rest.dropWhile isDigitChar
    if d = [] then Option.none
    else if r1.take 1 ≠ [':'] then Option.none
    else
      let r2 := r1.drop 1
      let n := r2.takeWhile isNameChar
      let r3 := r2.dropWhile isNameChar
      if n = [] then Option.none
      else if r3.take 1 ≠ ['!'] then Option.none
      else
        let r4 := r3.drop 1
        let t := r4.takeWhile isTypeChar
        let r5 := r4.dropWhile isTypeChar
        if t = [] then Option.none
        else
          some (⟨String.mk ('#' :: 'A' :: 'p' :: 'p' :: ':' :: (d ++ ':' :: (n ++ '!' :: t))),
                 String.mk d, String.mk n, String.mk t⟩, r5)

/-- Modelled from the spec: full-string match of the variable grammar —
the string is a variable iff the whole of it parses as one variable
reference (spec §3: a string is a Variable iff it matches the grammar). -/
def parseVariableCore (s : String) : Option ParsedVariable :=
  match tryParseVar s.toList with
  | some (pv, []) => some pv
  | _ => Option.none

/-- Modelled from the spec: `re.match(self._variable_match, s)` viewed as a
boolean (the anchored variable-grammar pattern). -/
def variableMatchB (s : String) : Bool :=
  (parseVariableCore s).isSome

/-- Modelled from the spec: `self._variable_single_types` — the single
(scalar) playbook types (§4.2, §6). -/
def variable_single_types : List String :=
  ["Binary", "KeyValue", "String", "TCEntity", "TCEnhancedEntity"]

/-- Modelled from the spec: `self._variable_array_types` — the array
playbook types (§4.2, §6). -/
def variable_array_types : List String :=
  ["BinaryArray", "KeyValueArray", "StringArray", "TCEntityArray", "TCEnhancedEntityArray"]

/-- First-match lookup in an insertion-ordered association list
(Python `dict.get`). -/
def dictGet {α : Type} (k : String) : List (String × α) → Option α
  | [] => Option.none
  | (k', v) :: rest => if k' = k then some v else dictGet k rest

/-- Python `dict` assignment `d[k] = v`: replace in place if the key is
present, else append at the end (insertion order preserved). -/
def dictInsert {α : Type} (k : String) (v : α) : List (String × α) → List (String × α)
  | [] => [(k, v)]
  | (k', v') :: rest => if k' = k then (k, v) :: rest else (k', v') :: dictInsert k v rest

/-- Python `dict.setdefault(k, dflt)` (effect on the dict): insert
`(k, dflt)` at the end when `k` is absent, otherwise leave unchanged. -/
def dictSetdefault {α : Type} (k : String) (dflt : α) (d : List (String × α)) :
    List (String × α) :=
  if (dictGet k d).isSome then d else d ++ [(k, dflt)]

/-- Embeds `Playbook.is_variable` (playbook.py 332-338): `True` iff the provided
key is a string matching the variable pattern; the raw key is matched,
without stripping. -/
def is_variable : PyVal → Bool
  | PyVal.str s => variableMatchB s
  | _ => false

/-- Embeds `Playbook.parse_variable` (playbook.py 354-378): `None` in, `None`
out; otherwise the input is stripped and, when the stripped string matches
the variable pattern, the parsed `{root, job_id, name, type}` dict is
returned, else `None`. -/
def parse_variable : Option String → Option ParsedVariable
  | Option.none => Option.none
  | some s => parseVariableCore (pyStrip s)

/-- Embeds `Playbook.variable_type` (playbook.py 643-665): the type embedded in
the (stripped) variable string, defaulting to `"String"` for
non-variables and non-string inputs. -/
def variable_type : PyVal → String
  | PyVal.str s =>
      match parseVariableCore (pyStrip s) with
      | some pv => pv.vtype
      | Option.none => "String"
  | _ => "String"

/-- Buffered output entry: the dict `{key, type, value}` held in
`Playbook.output_data`; `add_output` can create it empty (all fields
absent) before deciding whether to store anything. -/
structure OutputRecord where
  key : Option String
  vtype : Option String
  value : Option PyVal
  deriving Repr, DecidableEq

/-- The empty dict `{}` inserted by `output_data.setdefault(index, {})`. -/
def OutputRecord.empty : OutputRecord := ⟨Option.none, Option.none, Option.none⟩

/-- Python `record.setdefault("key", k)` on a buffered output record. -/
def recSetdefaultKey (r : OutputRecord) (k : String) : OutputRecord :=
  match r.key with
  | Option.none => { r with key := some k }
  | some _ => r

/-- Python `record.setdefault("type", t)` on a buffered output record. -/
def recSetdefaultType (r : OutputRecord) (t : String) : OutputRecord :=
  match r.vtype with
  | Option.none => { r with vtype := some t }
  | some _ => r

/-- The state of one `Playbook` instance: the key-value store reachable
through the adapter (for the single context of the instance), the
requested output variable strings supplied at construction, and the
`output_data` buffer. -/
structure Playbook where
  store : List (String × PyVal)
  output_variables : List String
  output_data : List (String × OutputRecord)
  deriving Repr, DecidableEq

/-- Modelled from the spec (§6 Key-Value Store Adapter):
`put(context, key, value) -> ack string`.  The context is the single one
of the instance and is left implicit; the content of the acknowledgment
string is unspecified. -/
def kvPut (pb : Playbook) (key : String) (value : PyVal) : Playbook × String :=
  ({ pb with store := dictInsert key value pb.store }, "ok")

/-- Modelled from the spec (§6): `get(context, key) -> raw value | null`. -/
def kvGet (pb : Playbook) (key : String) : PyVal :=
  (dictGet key pb.store).getD PyVal.none

/-- Modelled from the spec: `PlaybookABC._create`, the scalar-write path
(not among the sources; §4.5 create dispatches to it for single types). -/
def _create (pb : Playbook) (key : String) (value : PyVal) : Playbook × String :=
  kvPut pb key value

/-- Modelled from the spec: `PlaybookABC._create_array`, the array-write
path. -/
def _create_array (pb : Playbook) (key : String) (value : PyVal) : Playbook × String :=
  kvPut pb key value

/-- Modelled from the spec: `PlaybookABC.create_raw`, the raw-write path. -/
def create_raw (pb : Playbook) (key : String) (value : PyVal) : Playbook × String :=
  kvPut pb key value

/-- Modelled from the spec (§4.3 Embedded Resolver): render a resolved
value back into the surrounding text (the spec leaves the rendering of
non-string values unspecified). -/
def renderVal : PyVal → String
  | PyVal.none => "None"
  | PyVal.str s => s
  | PyVal.int n => toString n
  | PyVal.list _ => ""

/-- Modelled from the spec (§4.3): scan text for embedded variable
references and splice in each reference's resolved value; `resolve`
resolves the raw store value fetched for a reference, and the counter
(initialised to the length of the text) bounds the scan structurally. -/
def resolveCharsWith (pb : Playbook) (resolve : PyVal → PyVal) :
    Nat → List Char → List Char
  | 0, l => l
  | _ + 1, [] => []
  | n + 1, c :: rest =>
    match tryParseVar (c :: rest) with
    | some (pv, remaining) =>
        (renderVal (resolve ((dictGet pv.root pb.store).getD PyVal.none))).toList
          ++ resolveCharsWith pb resolve n remaining
    | Option.none => c :: resolveCharsWith pb resolve n rest

/-- Depth bound of the embedded resolver (spec §4.3: the bound against
self-referential variables is an implementation choice). -/
def embedFuel : Nat := 100

/-- Modelled from the spec (§4.3, `PlaybookABC._read_embedded`):
recursively expand variable references embedded inside string/list
values, to the bounded depth. -/
def embedF (pb : Playbook) : Nat → PyVal → PyVal
  | 0, v => v
  | n + 1, PyVal.str s =>
      PyVal.str (String.mk (resolveCharsWith pb (embedF pb n) s.toList.length s.toList))
  | n + 1, PyVal.list xs => PyVal.list (xs.map (embedF pb n))
  | _ + 1, v => v

/-- Modelled from the spec: `PlaybookABC._read`, the scalar-read path
(store fetch plus optional embedded resolution). -/
def _read (pb : Playbook) (key : String) (embedded : Bool) : PyVal :=
  let v := kvGet pb key
  if embedded then embedF pb embedFuel v else v

/-- Modelled from the spec: `PlaybookABC._read_array`, the array-read
path. -/
def _read_array (pb : Playbook) (key : String) (embedded : Bool) : PyVal :=
  let v := kvGet pb key
  if embedded then embedF pb embedFuel v else v

/-- Modelled from the spec: `PlaybookABC.read_raw` (no embedded
resolution). -/
def read_raw (pb : Playbook) (key : String) : PyVal :=
  kvGet pb key

/-- Modelled from the spec (§4.4 Output Request Index,
`PlaybookABC._parse_output_variables`): parse each requested variable
string and insert it into the by-name and the by-name-type mapping, each
entry holding the original requested variable string. -/
def _parse_output_variables (vars : List String) :
    List (String × String) × List (String × String) :=
  vars.foldl
    (fun acc v =>
      match parse_variable (some v) with
      | some pv =>
          (dictInsert pv.name v acc.1, dictInsert (pv.name ++ "-" ++ pv.vtype) v acc.2)
      | Option.none => acc)
    ([], [])

/-- Embeds `Playbook.output_variables_by_name` (memoization elided: the cached
result equals recomputation). -/
def output_variables_by_name (pb : Playbook) : List (String × String) :=
  (_parse_output_variables pb.output_variables).1

/-- Embeds `Playbook.output_variables_by_type`. -/
def output_variables_by_type (pb : Playbook) : List (String × String) :=
  (_parse_output_variables pb.output_variables).2

/-- Embeds `Playbook.create` (playbook.py 115-146): `None` key is a no-op;
otherwise the key is stripped, parsed with `parse_variable`, the parsed
dict is subscripted at `type` — a `TypeError` when the parse returned
`None`, i.e. when the key does not match the variable grammar — and the
type dispatches to the scalar-, array- or raw-write path. -/
def create (pb : Playbook) (key : Option String) (value : PyVal) :
    Except String (Playbook × Option String) :=
  match key with
  | Option.none => Except.ok (pb, Option.none)
  | some k0 =>
    let k := pyStrip k0
    match parse_variable (some (pyStrip k)) with
    | Option.none => Except.error "TypeError: NoneType object is not subscriptable"
    | some pv =>
      if pv.vtype ∈ variable_single_types then
        let r := _create pb k value
        Except.ok (r.1, some r.2)
      else if pv.vtype ∈ variable_array_types then
        let r := _create_array pb k value
        Except.ok (r.1, some r.2)
      else
        let r := create_raw pb k value
        Except.ok (r.1, some r.2)

/-- The `RuntimeError` message raised by the strict typed creators. -/
def typeMismatchMsg (key : String) (expected : String) : String :=
  "The key provided (" ++ key ++ ") is not a " ++ expected ++ " key."

/-- Embeds `Playbook.create_binary` (playbook.py 148-161). -/
def create_binary (pb : Playbook) (key : String) (value : PyVal) :
    Except String (Playbook × String) :=
  if variable_type (PyVal.str key) ≠ "Binary" then
    Except.error (typeMismatchMsg key "Binary")
  else Except.ok (_create pb key value)

/-- Embeds `Playbook.create_binary_array` (playbook.py 163-176). -/
def create_binary_array (pb : Playbook) (key : String) (value : PyVal) :
    Except String (Playbook × String) :=
  if variable_type (PyVal.str key) ≠ "BinaryArray" then
    Except.error (typeMismatchMsg key "BinaryArray")
  else Except.ok (_create_array pb key value)

/-- Embeds `Playbook.create_key_value` (playbook.py 178-191). -/
def create_key_value (pb : Playbook) (key : String) (value : PyVal) :
    Except String (Playbook × String) :=
  if variable_type (PyVal.str key) ≠ "KeyValue" then
    Except.error (typeMismatchMsg key "KeyValue")
  else Except.ok (_create pb key value)

/-- Embeds `Playbook.create_key_value_array` (playbook.py 193-206). -/
def create_key_value_array (pb : Playbook) (key : String) (value : PyVal) :
    Except String (Playbook × String) :=
  if variable_type (PyVal.str key) ≠ "KeyValueArray" then
    Except.error (typeMismatchMsg key "KeyValueArray")
  else Except.ok (_create_array pb key value)

/-- Embeds `Playbook.create_string` (playbook.py 208-221). -/
def create_string (pb : Playbook) (key : String) (value : PyVal) :
    Except String (Playbook × String) :=
  if variable_type (PyVal.str key) ≠ "String" then
    Except.error (typeMismatchMsg key "String")
  else Except.ok (_create pb key value)

/-- Embeds `Playbook.create_string_array` (playbook.py 223-236). -/
def create_string_array (pb : Playbook) (key : String) (value : PyVal) :
    Except String (Playbook × String) :=
  if variable_type (PyVal.str key) ≠ "StringArray" then
    Except.error (typeMismatchMsg key "StringArray")
  else Except.ok (_create_array pb key value)

/-- Embeds `Playbook.create_tc_entity` (playbook.py 238-251). -/
def create_tc_entity (pb : Playbook) (key : String) (value : PyVal) :
    Except String (Playbook × String) :=
  if variable_type (PyVal.str key) ≠ "TCEntity" then
    Except.error (typeMismatchMsg key "TCEntity")
  else Except.ok (_create pb key value)

/-- The three accepted types of `Playbook.create_tc_entity_array`. -/
def tcEntityArrayAccepted : List String :=
  ["TCEntityArray", "TCEnhancedEntity", "TCEnhancedEntityArray"]

/-- Embeds `Playbook.create_tc_entity_array` (playbook.py 253-266); the error
message renders the Python list of accepted types (quotes elided). -/
def create_tc_entity_array (pb : Playbook) (key : String) (value : PyVal) :
    Except String (Playbook × String) :=
  if variable_type (PyVal.str key) ∉ tcEntityArrayAccepted then
    Except.error
      (typeMismatchMsg key "[TCEntityArray, TCEnhancedEntity, TCEnhancedEntityArray]")
  else Except.ok (_create_array pb key value)

/-- Rendering of an `Optional[str]` in an f-string (`None` prints as
`"None"`). -/
def fstrOpt : Option String → String
  | Option.none => "None"
  | some s => s

/-- Embeds `Playbook.create_output` (playbook.py 268-312): the requested-output
gate.  No-op returning `None` when the output-request index is empty,
the key is `None` or the value is `None`; otherwise the stripped key and
the composite `"<key>-<type>"` are looked up: an exact name-type match
delegates to `create` with the full requested variable string, a
bare-name match does so only when the caller supplied no type, and
otherwise the call is a silent no-op. -/
def create_output (pb : Playbook) (key : Option String) (value : PyVal)
    (vt : Option String) : Except String (Playbook × Option String) :=
  if output_variables_by_type pb = [] then Except.ok (pb, Option.none)
  else
    match key with
    | Option.none => Except.ok (pb, Option.none)
    | some k0 =>
      if isNoneVal value then Except.ok (pb, Option.none)
      else
        let k := pyStrip k0
        let key_type := k ++ "-" ++ fstrOpt vt
        match dictGet key_type (output_variables_by_type pb) with
        | some v => create pb (some v) value
        | Option.none =>
          match dictGet k (output_variables_by_name pb), vt with
          | some v, Option.none => create pb (some v) value
          | _, _ => Except.ok (pb, Option.none)

/-- Embeds `Playbook.add_output` (playbook.py 35-99): the buffer entry at
`"<key>-<type>"` is created empty first (`setdefault`), then the
null-value policy may skip, then an array type with `append_array`
extends/appends into the buffered list (a `list` value element-wise,
anything else as a single element; an `AttributeError` when the buffered
value is not a list), and otherwise the record is overwritten entirely. -/
def add_output (pb : Playbook) (key : String) (value : PyVal) (vt : String)
    (append_array : Bool) : Except String Playbook :=
  let index := key ++ "-" ++ vt
  let od := dictSetdefault index OutputRecord.empty pb.output_data
  let pb1 : Playbook := { pb with output_data := od }
  if isNoneVal value && decide (vt ∉ variable_array_types) then Except.ok pb1
  else if isNoneVal value && !append_array && decide (vt ∈ variable_array_types) then
    Except.ok pb1
  else if decide (vt ∈ variable_array_types) && append_array then
    let r0 := (dictGet index od).getD OutputRecord.empty
    let r1 := recSetdefaultType (recSetdefaultKey r0 key) vt
    match r1.value.getD (PyVal.list []) with
    | PyVal.list l =>
        let nl := match value with
          | PyVal.list xs => l ++ xs
          | v => l ++ [v]
        Except.ok { pb1 with
          output_data := dictInsert index ({ r1 with value := some (PyVal.list nl) }) od }
    | _ => Except.error "AttributeError: object has no attribute extend"
  else
    Except.ok { pb1 with
      output_data := dictInsert index ⟨some key, some vt, some value⟩ od }

/-- One flush step of `Playbook.write_output`: a buffered record's
`.get` of `key`, `value` and `type` passed to
`create_output`. -/
def writeStep (p : Playbook) (e : String × OutputRecord) : Except String Playbook :=
  (create_output p e.2.key (e.2.value.getD PyVal.none) e.2.vtype).map Prod.fst

/-- Embeds `Playbook.write_output` (playbook.py 667-670): flush every buffered
output record through `create_output(key, value, type)`, in insertion
order. -/
def write_output (pb : Playbook) : Except String Playbook :=
  pb.output_data.foldlM writeStep pb

/-- Embeds the first substitution of playbook.py 413 on character
lists: replace each backslash-s not preceded by a backslash with a
space; `prev` is the original character just before the scan position
(the lookbehind inspects the original text). -/
def subSlashS (prev : Option Char) : List Char → List Char
  | [] => []
  | '\\' :: 's' :: rest =>
      if prev = some '\\' then '\\' :: subSlashS (some '\\') ('s' :: rest)
      else ' ' :: subSlashS (some 's') rest
  | c :: rest => c :: subSlashS (some c) rest

/-- Embeds the second substitution of playbook.py 414: replace each literal
backslash-backslash-s with backslash-s. -/
def subDoubleSlashS : List Char → List Char
  | '\\' :: '\\' :: 's' :: rest => '\\' :: 's' :: subDoubleSlashS rest
  | c :: rest => c :: subDoubleSlashS rest
  | [] => []

/-- The pre-coercion value computed by `Playbook.read` (playbook.py
380-418): the local `value` just before the final array-coercion block.
A non-string key passes through unchanged; a string key is stripped and
classified; a grammar match dispatches to the scalar-, array- or
raw-read path; a literal whose default type is `String` undergoes the
two escape substitutions (applied to the unstripped original) and then
optional embedded resolution. -/
def readValue (pb : Playbook) (key : PyVal) (embedded : Bool) : PyVal :=
  match key with
  | PyVal.str ks =>
    let k := pyStrip ks
    let vt := variable_type (PyVal.str k)
    if variableMatchB k then
      if vt ∈ variable_single_types then _read pb k embedded
      else if vt ∈ variable_array_types then _read_array pb k embedded
      else read_raw pb k
    else
      let v1 := if vt = "String" then
          PyVal.str (String.mk (subDoubleSlashS (subSlashS Option.none ks.toList)))
        else PyVal.str ks
      if embedded then embedF pb embedFuel v1 else v1
  | v => v

/-- Embeds `Playbook.read` (playbook.py 380-429): the pre-coercion value,
wrapped by the array-coercion block when `array` is set (a non-list
non-null value becomes a singleton list, `None` becomes the empty
list). -/
def read (pb : Playbook) (key : PyVal) (array : Bool) (embedded : Bool) : PyVal :=
  let value := readValue pb key embedded
  if array && !isListVal value then
    if isNoneVal value then PyVal.list [] else PyVal.list [value]
  else value

/-- An instance with nothing requested and nothing stored. -/
def pb0 : Playbook := ⟨[], [], []⟩

/-- An instance whose downstream consumer requested a single string-array
output variable. -/
def pbC4 : Playbook := ⟨[], ["#App:1:x!StringArray"], []⟩

/-- An instance with two requested output variables (one scalar, one
array) for exercising the `create_output` gate. -/
def pbReq : Playbook := ⟨[], ["#App:1:x!String", "#App:2:y!StringArray"], []⟩

/-- An instance holding one buffered scalar output record whose variable
was requested downstream. -/
def pbW : Playbook :=
  ⟨[], ["#App:1:x!String"],
   [("x-String", ⟨some "x", some "String", some (PyVal.str "v")⟩)]⟩

/-- The state of `pbW` after one `write_output` flush: the value is in
the store under the full requested variable string, the buffer intact. -/
def pbW2 : Playbook :=
  ⟨[("#App:1:x!String", PyVal.str "v")], ["#App:1:x!String"],
   [("x-String", ⟨some "x", some "String", some (PyVal.str "v")⟩)]⟩

/-- Elements contributed by one `add_output` value on the append path:
a list value element-wise, anything else as one element. -/
def valueElems : PyVal → List PyVal
  | PyVal.list xs => xs
  | v => [v]

/-- The `recSetdefaultKey`/`recSetdefaultType` mutations never touch the
buffered value field. -/
theorem recSetdefault_value (r : OutputRecord) (k t : String) :
    (recSetdefaultType (recSetdefaultKey r k) t).value = r.value := by
  cases r with
  | mk rk rt rv => cases rk <;> cases rt <;> rfl

/-- The character list of a well-formed variable `#App:<d>:<n>!<t>`. -/
def varChars (d n t : List Char) : List Char :=
  '#' :: 'A' :: 'p' :: 'p' :: ':' :: (d ++ ':' :: (n ++ '!' :: t))

/-- The string of a well-formed variable `#App:<d>:<n>!<t>`. -/
def mkVar (d n t : List Char) : String :=
  String.mk (varChars d n t)

/-- The components of a well-formed variable: non-empty digits, name and
type drawn from their character classes. -/
def validVarParts (d n t : List Char) : Prop :=
  d ≠ [] ∧ d.all isDigitChar = true ∧ n ≠ [] ∧ n.all isNameChar = true ∧
    t ≠ [] ∧ t.all isTypeChar = true

instance (d n t : List Char) : Decidable (validVarParts d n t) := by
  unfold validVarParts; infer_instance

theorem all_takeWhile_self {α : Type} {p : α → Bool} :
    ∀ l : List α, l.all p = true → l.takeWhile p = l := by
  intro l h
  induction l with
  | nil => rfl
  | cons a l ih =>
      simp only [List.all_cons, Bool.and_eq_true] at h
      simp [List.takeWhile_cons, h.1, ih h.2]

theorem all_dropWhile_nil {α : Type} {p : α → Bool} :
    ∀ l : List α, l.all p = true → l.dropWhile p = [] := by
  intro l h
  induction l with
  | nil => rfl
  | cons a l ih =>
      simp only [List.all_cons, Bool.and_eq_true] at h
      simp [List.dropWhile_cons, h.1, ih h.2]

theorem takeWhile_append_sep {α : Type} {p : α → Bool} :
    ∀ (l1 : List α) (c : α) (l2 : List α), l1.all p = true → p c = false →
      (l1 ++ c :: l2).takeWhile p = l1 := by
  intro l1 c l2 h hc
  induction l1 with
  | nil => simp [List.takeWhile_cons, hc]
  | cons a l ih =>
      simp only [List.all_cons, Bool.and_eq_true] at h
      simp [List.takeWhile_cons, h.1, ih h.2]

theorem dropWhile_append_sep {α : Type} {p : α → Bool} :
    ∀ (l1 : List α) (c : α) (l2 : List α), l1.all p = true → p c = false →
      (l1 ++ c :: l2).dropWhile p = c :: l2 := by
  intro l1 c l2 h hc
  induction l1 with
  | nil => simp [List.dropWhile_cons, hc]
  | cons a l ih =>
      simp only [List.all_cons, Bool.and_eq_true] at h
      simp [List.dropWhile_cons, h.1, ih h.2]

theorem dropWhile_append_all {α : Type} {p : α → Bool} :
    ∀ (w l : List α), w.all p = true → (w ++ l).dropWhile p = l.dropWhile p := by
  intro w l h
  induction w with
  | nil => rfl
  | cons a w ih =>
      simp only [List.all_cons, Bool.and_eq_true] at h
      simp [List.dropWhile_cons, h.1, ih h.2]

theorem typeChar_not_space (c : Char) (h : isTypeChar c = true) : isPySpace c = false := by
  cases hc : isPySpace c with
  | false => rfl
  | true =>
      exfalso
      simp only [isPySpace, Bool.or_eq_true, decide_eq_true_eq] at hc
      rcases hc with ((((rfl | rfl) | rfl) | rfl) | rfl) | rfl <;> exact absurd h (by decide)

theorem space_not_hash (c : Char) (h : isPySpace c = true) : c ≠ '#' := by
  intro rfl_eq
  subst rfl_eq
  exact absurd h (by decide)

theorem stripEnd_eq_self (l : List Char)
    (h : ∀ c, l.reverse.head? = some c → isPySpace c = false) : stripEnd l = l := by
  unfold stripEnd
  cases hr : l.reverse with
  | nil =>
      have : l = [] := by simpa using congrArg List.reverse hr
      simp [this]
  | cons c cs =>
      have hc := h c (by rw [hr]; rfl)
      rw [List.dropWhile_cons, hc]
      simp only [Bool.false_eq_true, if_false]
      rw [← hr, List.reverse_reverse]

theorem varChars_reverse_head (d n t : List Char) (ht : t ≠ [])
    (hall : t.all isTypeChar = true) :
    ∀ c, (varChars d n t).reverse.head? = some c → isPySpace c = false := by
  intro c hc
  rw [List.head?_reverse] at hc
  have hlast : (varChars d n t).getLast? = t.getLast? := by
    rw [show varChars d n t =
        (('#' :: 'A' :: 'p' :: 'p' :: ':' :: (d ++ ':' :: (n ++ ['!']))) ++ t) by
      simp [varChars]]
    exact List.getLast?_append_of_ne_nil _ ht
  rw [hlast, List.getLast?_eq_getLast_of_ne_nil ht, Option.some.injEq] at hc
  have hmem : c ∈ t := hc ▸ List.getLast_mem ht
  exact typeChar_not_space c (by
    have := List.all_eq_true.mp hall c hmem
    simpa using this)

theorem stripChars_varChars (d n t : List Char) (ht : t ≠ [])
    (hall : t.all isTypeChar = true) :
    stripChars (varChars d n t) = varChars d n t := by
  unfold stripChars
  rw [show (varChars d n t).dropWhile isPySpace = varChars d n t by
    unfold varChars
    rw [List.dropWhile_cons, show isPySpace '#' = false from by decide]
    simp]
  exact stripEnd_eq_self _ (varChars_reverse_head d n t ht hall)

theorem tryParseVar_varChars (d n t : List Char) (h : validVarParts d n t) :
    tryParseVar (varChars d n t) =
      some (⟨mkVar d n t, String.mk d, String.mk n, String.mk t⟩, []) := by
  obtain ⟨hd, hda, hn, hna, ht, hta⟩ := h
  unfold tryParseVar varChars
  have h5 : ('#' :: 'A' :: 'p' :: 'p' :: ':' :: (d ++ ':' :: (n ++ '!' :: t))).take 5 =
      ['#', 'A', 'p', 'p', ':'] := rfl
  rw [h5]
  simp only [ne_eq, not_true_eq_false, if_false, List.drop_succ_cons, List.drop_zero]
  rw [takeWhile_append_sep d ':' (n ++ '!' :: t) hda (by decide),
    dropWhile_append_sep d ':' (n ++ '!' :: t) hda (by decide)]
  rw [if_neg hd]
  simp only [List.take_succ_cons, List.take_zero, ne_eq, not_true_eq_false, if_false,
    List.drop_succ_cons, List.drop_zero]
  rw [takeWhile_append_sep n '!' t hna (by decide),
    dropWhile_append_sep n '!' t hna (by decide)]
  rw [if_neg hn]
  simp only [List.take_succ_cons, List.take_zero, ne_eq, not_true_eq_false, if_false,
    List.drop_succ_cons, List.drop_zero]
  rw [all_takeWhile_self t hta, all_dropWhile_nil t hta]
  rw [if_neg ht]
  rfl

theorem parseVariableCore_mkVar (d n t : List Char) (h : validVarParts d n t) :
    parseVariableCore (mkVar d n t) =
      some ⟨mkVar d n t, String.mk d, String.mk n, String.mk t⟩ := by
  unfold parseVariableCore mkVar
  have hl : (String.mk (varChars d n t)).toList = varChars d n t := rfl
  rw [hl, tryParseVar_varChars d n t h]
  rfl

theorem pyStrip_mkVar (d n t : List Char) (h : validVarParts d n t) :
    pyStrip (mkVar d n t) = mkVar d n t := by
  unfold pyStrip mkVar
  have : (String.mk (varChars d n t)).toList = varChars d n t := rfl
  rw [this, stripChars_varChars d n t h.2.2.2.2.1 h.2.2.2.2.2]

theorem dropWhile_head_not {α : Type} {p : α → Bool} :
    ∀ (l : List α) (c : α) (t : List α), l.dropWhile p = c :: t → p c = false := by
  intro l
  induction l with
  | nil => intro c t h; cases h
  | cons a l ih =>
      intro c t h
      rw [List.dropWhile_cons] at h
      by_cases ha : p a = true
      · rw [if_pos ha] at h
        exact ih c t h
      · rw [if_neg ha] at h
        cases h
        simpa using ha

theorem stripEnd_eq_rdropWhile (l : List Char) : stripEnd l = l.rdropWhile isPySpace := rfl

theorem rdrop_append_exists (m : List Char) :
    ∃ r, m.rdropWhile isPySpace ++ r = m := by
  obtain ⟨u, hu⟩ := List.dropWhile_suffix (l := m.reverse) isPySpace
  refine ⟨u.reverse, ?_⟩
  rw [show m.rdropWhile isPySpace = (m.reverse.dropWhile isPySpace).reverse from rfl]
  rw [← List.reverse_append, hu, List.reverse_reverse]

theorem stripChars_idem (l : List Char) : stripChars (stripChars l) = stripChars l := by
  unfold stripChars
  rw [stripEnd_eq_rdropWhile, stripEnd_eq_rdropWhile]
  have h1 : ((l.dropWhile isPySpace).rdropWhile isPySpace).dropWhile isPySpace =
      (l.dropWhile isPySpace).rdropWhile isPySpace := by
    cases hc : (l.dropWhile isPySpace).rdropWhile isPySpace with
    | nil => rfl
    | cons c t =>
        obtain ⟨r, hr⟩ := rdrop_append_exists (l.dropWhile isPySpace)
        rw [hc] at hr
        have hpc : isPySpace c = false := by
          apply dropWhile_head_not (l.dropWhile isPySpace) c (t ++ r)
          rw [List.dropWhile_idempotent, ← hr]
          simp
        rw [List.dropWhile_cons, hpc]
        simp
  rw [h1, List.rdropWhile_idempotent]

theorem pyStrip_idem (s : String) : pyStrip (pyStrip s) = pyStrip s := by
  unfold pyStrip
  rw [show (String.mk (stripChars s.toList)).toList = stripChars s.toList from rfl,
    stripChars_idem]

theorem stripChars_pad_varChars (w d n t : List Char) (hw : w.all isPySpace = true)
    (h : validVarParts d n t) :
    stripChars (w ++ varChars d n t) = varChars d n t := by
  unfold stripChars
  rw [dropWhile_append_all w _ hw]
  rw [show (varChars d n t).dropWhile isPySpace = varChars d n t by
    unfold varChars
    rw [List.dropWhile_cons, show isPySpace '#' = false from by decide]
    simp]
  exact stripEnd_eq_self _ (varChars_reverse_head d n t h.2.2.2.2.1 h.2.2.2.2.2)

theorem parseVariableCore_cons_not_hash (c : Char) (l : List Char) (hc : c ≠ '#') :
    parseVariableCore (String.mk (c :: l)) = Option.none := by
  have hl : (String.mk (c :: l)).toList = c :: l := rfl
  unfold parseVariableCore
  rw [hl]
  have hne : (c :: l).take 5 ≠ ['#', 'A', 'p', 'p', ':'] := by
    intro hcontr
    have h5 : (c :: l).take 5 = c :: l.take 4 := rfl
    rw [h5] at hcontr
    injection hcontr with h1 _
    exact hc h1
  have ht : tryParseVar (c :: l) = Option.none := by
    unfold tryParseVar
    rw [if_pos hne]
  rw [ht]

example : parseVariableCore "#App:1234:output!String" =
    some ⟨"#App:1234:output!String", "1234", "output", "String"⟩ := by decide
example : parseVariableCore "#App:12:out.put-x!StringArray" =
    some ⟨"#App:12:out.put-x!StringArray", "12", "out.put-x", "StringArray"⟩ := by decide
example : parseVariableCore " #App:1:n!String" = Option.none := by decide
example : parseVariableCore "#App:1:n!String " = Option.none := by decide
example : parseVariableCore "#App:x:n!String" = Option.none := by decide
example : parseVariableCore "plain" = Option.none := by decide
example : pyStrip "  a b \t" = "a b" := by decide

/-- C2, counterexample: the string built from one leading space and a
well-formed variable does not match the grammar (and `is_variable` is
`false` on it), yet `parse_variable` — which strips before matching —
does not return `None` on it and `variable_type` does not fall back to
`"String"`; the claim that every non-matching string parses to null with
default type `"String"` is therefore false. -/
theorem c2_counterexample :
    parseVariableCore " #App:1:n!StringArray" = Option.none
  ∧ is_variable (PyVal.str " #App:1:n!StringArray") = false
  ∧ ¬ (parse_variable (some " #App:1:n!StringArray") = Option.none
       ∧ variable_type (PyVal.str " #App:1:n!StringArray") = "String") := by
  refine ⟨by decide, by decide, ?_⟩
  intro hcl
  exact absurd hcl.1 (by decide)

/-- C2 (amended): for every string matching the grammar
`#App:<digits>:<name>!<type>`, `is_variable` is `true` and
`parse_variable` recovers exactly the job id, name and type; for every
non-matching string `is_variable` is `false`; for every string whose
stripped form is non-matching, `parse_variable` returns `None` and
`variable_type` returns the default `"String"`; for every non-string
input `is_variable` is `false` and `variable_type` is `"String"`, and
`parse_variable` of `None` is `None`. -/
theorem c2_variable_grammar :
    (∀ d n t : List Char, validVarParts d n t →
        is_variable (PyVal.str (mkVar d n t)) = true
      ∧ parse_variable (some (mkVar d n t)) =
          some ⟨mkVar d n t, String.mk d, String.mk n, String.mk t⟩)
  ∧ (∀ s : String, parseVariableCore s = Option.none →
        is_variable (PyVal.str s) = false)
  ∧ (∀ s : String, parseVariableCore (pyStrip s) = Option.none →
        parse_variable (some s) = Option.none ∧ variable_type (PyVal.str s) = "String")
  ∧ (∀ v : PyVal, isStrVal v = false →
        is_variable v = false ∧ variable_type v = "String")
  ∧ parse_variable Option.none = Option.none := by
  refine ⟨?_, ?_, ?_, ?_, rfl⟩
  · intro d n t h
    constructor
    · simp [is_variable, variableMatchB, parseVariableCore_mkVar d n t h]
    · simp [parse_variable, pyStrip_mkVar d n t h, parseVariableCore_mkVar d n t h]
  · intro s h
    simp [is_variable, variableMatchB, h]
  · intro s h
    exact ⟨by simp [parse_variable, h], by simp [variable_type, h]⟩
  · intro v hv
    cases v with
    | str s => simp [isStrVal] at hv
    | none => exact ⟨rfl, rfl⟩
    | int k => exact ⟨rfl, rfl⟩
    | list l => exact ⟨rfl, rfl⟩

/-- C2, witness: the amended grammar theorem applied at concrete inputs. -/
theorem c2_witness :
    is_variable (PyVal.str "#App:12:na.me-x!TCEntityArray") = true
  ∧ parse_variable (some "#App:12:na.me-x!TCEntityArray") =
      some ⟨"#App:12:na.me-x!TCEntityArray", "12", "na.me-x", "TCEntityArray"⟩
  ∧ is_variable (PyVal.str "plain") = false
  ∧ parse_variable (some "  plain  ") = Option.none
  ∧ variable_type (PyVal.str "  plain  ") = "String"
  ∧ variable_type (PyVal.int 3) = "String" := by
  have h := c2_variable_grammar
  refine ⟨?_, ?_, ?_, ?_, ?_, ?_⟩
  · exact (h.1 ['1', '2'] ['n', 'a', '.', 'm', 'e', '-', 'x']
      ['T', 'C', 'E', 'n', 't', 'i', 't', 'y', 'A', 'r', 'r', 'a', 'y'] (by decide)).1
  · exact (h.1 ['1', '2'] ['n', 'a', '.', 'm', 'e', '-', 'x']
      ['T', 'C', 'E', 'n', 't', 'i', 't', 'y', 'A', 'r', 'r', 'a', 'y'] (by decide)).2
  · exact h.2.1 "plain" (by decide)
  · exact (h.2.2.1 "  plain  " (by decide)).1
  · exact (h.2.2.1 "  plain  " (by decide)).2
  · exact (h.2.2.2.1 (PyVal.int 3) (by decide)).2

/-- C10: `parse_variable` and `variable_type` strip the input before
matching while `is_variable` matches the raw string, so on a
whitespace-padded well-formed variable the former two succeed while
`is_variable` is `false`. -/
theorem c10_strip_asymmetry (w d n t : List Char)
    (hw : w ≠ []) (hws : w.all isPySpace = true) (h : validVarParts d n t) :
    parse_variable (some (String.mk (w ++ varChars d n t))) =
      some ⟨mkVar d n t, String.mk d, String.mk n, String.mk t⟩
  ∧ variable_type (PyVal.str (String.mk (w ++ varChars d n t))) = String.mk t
  ∧ is_variable (PyVal.str (String.mk (w ++ varChars d n t))) = false := by
  have hstrip : pyStrip (String.mk (w ++ varChars d n t)) = mkVar d n t := by
    unfold pyStrip mkVar
    rw [show (String.mk (w ++ varChars d n t)).toList = w ++ varChars d n t from rfl]
    rw [stripChars_pad_varChars w d n t hws h]
  have hnone : parseVariableCore (String.mk (w ++ varChars d n t)) = Option.none := by
    cases w with
    | nil => exact absurd rfl hw
    | cons c w2 =>
        have hsp : isPySpace c = true := by
          rw [List.all_cons, Bool.and_eq_true] at hws
          exact hws.1
        have hch : c ≠ '#' := space_not_hash c hsp
        rw [show String.mk ((c :: w2) ++ varChars d n t) =
            String.mk (c :: (w2 ++ varChars d n t)) from rfl]
        exact parseVariableCore_cons_not_hash c _ hch
  refine ⟨?_, ?_, ?_⟩
  · simp [parse_variable, hstrip, parseVariableCore_mkVar d n t h]
  · simp [variable_type, hstrip, parseVariableCore_mkVar d n t h]
  · simp [is_variable, variableMatchB, hnone]

/-- C10, witness: the strip asymmetry at a concrete padded variable. -/
theorem c10_witness :
    parse_variable (some " #App:1:n!StringArray") =
      some ⟨"#App:1:n!StringArray", "1", "n", "StringArray"⟩
  ∧ variable_type (PyVal.str " #App:1:n!StringArray") = "StringArray"
  ∧ is_variable (PyVal.str " #App:1:n!StringArray") = false :=
  c10_strip_asymmetry [' '] ['1'] ['n']
    ['S', 't', 'r', 'i', 'n', 'g', 'A', 'r', 'r', 'a', 'y']
    (by decide) (by decide) (by decide)

theorem dictGet_insert_self {α : Type} (k : String) (v : α) :
    ∀ d : List (String × α), dictGet k (dictInsert k v d) = some v := by
  intro d
  induction d with
  | nil => simp [dictInsert, dictGet]
  | cons e d ih =>
      obtain ⟨k1, v1⟩ := e
      by_cases hk : k1 = k
      · simp [dictInsert, dictGet, hk]
      · simp [dictInsert, dictGet, hk, ih]

theorem dictGet_append_of_none {α : Type} (k : String) (d1 d2 : List (String × α))
    (h : dictGet k d1 = Option.none) : dictGet k (d1 ++ d2) = dictGet k d2 := by
  induction d1 with
  | nil => rfl
  | cons e d ih =>
      obtain ⟨k1, v1⟩ := e
      by_cases hk : k1 = k
      · simp [dictGet, hk] at h
      · simp only [dictGet, hk, if_false, List.cons_append] at h ⊢
        simp [dictGet, hk]
        exact ih h

theorem dictGet_setdefault_self {α : Type} (k : String) (dflt : α) (d : List (String × α)) :
    dictGet k (dictSetdefault k dflt d) = some ((dictGet k d).getD dflt) := by
  unfold dictSetdefault
  cases hd : dictGet k d with
  | some v => simp [hd]
  | none =>
      simp only [hd, Option.isSome_none, Bool.false_eq_true, if_false, Option.getD_none]
      rw [dictGet_append_of_none k d _ hd]
      simp [dictGet]

/-- C9: every `add_output` call — including the ones whose null-value
policy stores nothing — inserts an entry at `"<key>-<type>"` into the
output buffer before the null checks run; in particular a skipped
null-value call leaves an empty record (no key, type or value fields)
at the index. -/
theorem c9_add_output_inserts_index (pb : Playbook) (key : String) (value : PyVal)
    (vt : String) (ap : Bool) :
    (∀ pb2, add_output pb key value vt ap = Except.ok pb2 →
        (dictGet (key ++ "-" ++ vt) pb2.output_data).isSome = true)
  ∧ (isNoneVal value = true → vt ∉ variable_array_types →
        add_output pb key value vt ap = Except.ok { pb with
          output_data := dictSetdefault (key ++ "-" ++ vt) OutputRecord.empty pb.output_data }) := by
  constructor
  · intro pb2 h
    simp only [add_output] at h
    split_ifs at h with h1 h2 h3
    · injection h with h
      subst h
      rw [dictGet_setdefault_self]
      rfl
    · injection h with h
      subst h
      rw [dictGet_setdefault_self]
      rfl
    · split at h
      · injection h with h
        subst h
        simp only
        rw [dictGet_insert_self]
        rfl
      · cases h
    · injection h with h
      subst h
      simp only
      rw [dictGet_insert_self]
      rfl
  · intro h1 h2
    simp only [add_output]
    rw [if_pos]
    simp [h1, h2]

/-- C9, witness: a null scalar-typed `add_output` on a fresh instance
buffers exactly one empty record at `"k-String"`, and `write_output`
then iterates over that empty record without effect (its `None` key is
a `create_output` no-op). -/
theorem c9_witness :
    add_output pb0 "k" PyVal.none "String" true =
      Except.ok { pb0 with output_data := [("k-String", OutputRecord.empty)] }
  ∧ write_output
      { store := [], output_variables := ["#App:1:x!String"],
        output_data := [("k-String", OutputRecord.empty)] } =
    Except.ok
      { store := [], output_variables := ["#App:1:x!String"],
        output_data := [("k-String", OutputRecord.empty)] } := by
  constructor
  · exact (c9_add_output_inserts_index pb0 "k" PyVal.none "String" true).2 rfl (by decide)
  · rfl

/-- C4: the `add_output` buffering policy — a null value with a
non-array type is skipped, a null value with an array type and
`append_array = false` is skipped, an array type with
`append_array = true` extends the buffered list (a list value
element-wise, anything else — a null included — as one element), every
other case overwrites the record entirely; and the concrete chain
`add_output x a StringArray`, `add_output x b StringArray`,
`write_output` stores `["a", "b"]` under the full requested variable. -/
theorem c4_add_output_policy :
    (∀ (pb : Playbook) (key : String) (value : PyVal) (vt : String) (ap : Bool),
        isNoneVal value = true → vt ∉ variable_array_types →
        add_output pb key value vt ap = Except.ok { pb with
          output_data := dictSetdefault (key ++ "-" ++ vt) OutputRecord.empty pb.output_data })
  ∧ (∀ (pb : Playbook) (key : String) (value : PyVal) (vt : String),
        isNoneVal value = true → vt ∈ variable_array_types →
        add_output pb key value vt false = Except.ok { pb with
          output_data := dictSetdefault (key ++ "-" ++ vt) OutputRecord.empty pb.output_data })
  ∧ (∀ (pb : Playbook) (key : String) (value : PyVal) (vt : String) (l : List PyVal),
        vt ∈ variable_array_types →
        ((dictGet (key ++ "-" ++ vt) pb.output_data).getD OutputRecord.empty).value.getD
            (PyVal.list []) = PyVal.list l →
        ∃ pb2, add_output pb key value vt true = Except.ok pb2
          ∧ ∃ r, dictGet (key ++ "-" ++ vt) pb2.output_data = some r
              ∧ r.value = some (PyVal.list (l ++ valueElems value)))
  ∧ (∀ (pb : Playbook) (key : String) (value : PyVal) (vt : String) (ap : Bool),
        isNoneVal value = false → ¬(vt ∈ variable_array_types ∧ ap = true) →
        add_output pb key value vt ap = Except.ok { pb with
          output_data := dictInsert (key ++ "-" ++ vt) ⟨some key, some vt, some value⟩
            (dictSetdefault (key ++ "-" ++ vt) OutputRecord.empty pb.output_data) })
  ∧ ((do
        let p1 ← add_output pbC4 "x" (PyVal.str "a") "StringArray" true
        let p2 ← add_output p1 "x" (PyVal.str "b") "StringArray" true
        write_output p2).map Playbook.store =
      Except.ok [("#App:1:x!StringArray", PyVal.list [PyVal.str "a", PyVal.str "b"])]) := by
  refine ⟨?_, ?_, ?_, ?_, rfl⟩
  · intro pb key value vt ap h1 h2
    simp only [add_output]
    rw [if_pos]
    simp [h1, h2]
  · intro pb key value vt h1 h2
    simp only [add_output]
    rw [if_neg (by simp [h1, h2]), if_pos (by simp [h1, h2])]
  · intro pb key value vt l hvt hprev
    have hget : dictGet (key ++ "-" ++ vt)
        (dictSetdefault (key ++ "-" ++ vt) OutputRecord.empty pb.output_data) =
        some ((dictGet (key ++ "-" ++ vt) pb.output_data).getD OutputRecord.empty) :=
      dictGet_setdefault_self _ _ _
    cases value with
    | none =>
        simp only [add_output, isNoneVal, Bool.true_and, Bool.and_true]
        rw [if_neg (by simp [hvt]), if_neg (by simp), if_pos (by simp [hvt]), hget]
        simp only [Option.getD_some, recSetdefault_value, hprev]
        exact ⟨_, rfl, _, dictGet_insert_self _ _ _, rfl⟩
    | str s =>
        simp only [add_output, isNoneVal, Bool.false_and, Bool.and_true]
        rw [if_neg (by simp), if_neg (by simp), if_pos (by simp [hvt]), hget]
        simp only [Option.getD_some, recSetdefault_value, hprev]
        exact ⟨_, rfl, _, dictGet_insert_self _ _ _, rfl⟩
    | int k =>
        simp only [add_output, isNoneVal, Bool.false_and, Bool.and_true]
        rw [if_neg (by simp), if_neg (by simp), if_pos (by simp [hvt]), hget]
        simp only [Option.getD_some, recSetdefault_value, hprev]
        exact ⟨_, rfl, _, dictGet_insert_self _ _ _, rfl⟩
    | list xs =>
        simp only [add_output, isNoneVal, Bool.false_and, Bool.and_true]
        rw [if_neg (by simp), if_neg (by simp), if_pos (by simp [hvt]), hget]
        simp only [Option.getD_some, recSetdefault_value, hprev]
        exact ⟨_, rfl, _, dictGet_insert_self _ _ _, rfl⟩
  · intro pb key value vt ap h1 h2
    simp only [add_output]
    rw [if_neg (by simp [h1]), if_neg (by simp [h1]), if_neg (by
      simp only [Bool.and_eq_true, decide_eq_true_eq]
      intro hc
      exact h2 ⟨hc.1, hc.2⟩)]

/-- C4, witness: the buffering policy applied at concrete inputs — a
null scalar skip, a null non-appending array skip, an append into a
fresh array record, and a scalar overwrite. -/
theorem c4_witness :
    add_output pb0 "k" PyVal.none "String" false =
      Except.ok { pb0 with output_data := [("k-String", OutputRecord.empty)] }
  ∧ add_output pb0 "k" PyVal.none "StringArray" false =
      Except.ok { pb0 with output_data := [("k-StringArray", OutputRecord.empty)] }
  ∧ (∃ pb2, add_output pb0 "k" (PyVal.str "a") "StringArray" true = Except.ok pb2
      ∧ ∃ r, dictGet "k-StringArray" pb2.output_data = some r
          ∧ r.value = some (PyVal.list [PyVal.str "a"]))
  ∧ add_output pb0 "k" (PyVal.str "a") "String" true =
      Except.ok { pb0 with output_data :=
        [("k-String", ⟨some "k", some "String", some (PyVal.str "a")⟩)] } := by
  have h := c4_add_output_policy
  refine ⟨?_, ?_, ?_, ?_⟩
  · exact h.1 pb0 "k" PyVal.none "String" false rfl (by decide)
  · exact h.2.1 pb0 "k" PyVal.none "StringArray" rfl (by decide)
  · exact h.2.2.1 pb0 "k" (PyVal.str "a") "StringArray" [] (by decide) rfl
  · exact h.2.2.2.1 pb0 "k" (PyVal.str "a") "String" true rfl (by decide)

/-- All write paths of `create` leave the output buffer and the requested
output variables untouched (they only write to the store). -/
theorem create_preserves (p : Playbook) (k : Option String) (v : PyVal)
    (res : Playbook × Option String) (h : create p k v = Except.ok res) :
    res.1.output_data = p.output_data ∧ res.1.output_variables = p.output_variables := by
  cases k with
  | none =>
      simp only [create] at h
      injection h with h
      subst h
      exact ⟨rfl, rfl⟩
  | some k0 =>
      simp only [create, _create, _create_array, create_raw, kvPut] at h
      split at h
      · cases h
      · split_ifs at h <;> (injection h with h; subst h; exact ⟨rfl, rfl⟩)

/-- `create_output` leaves the output buffer and requested variables
untouched. -/
theorem create_output_preserves (p : Playbook) (k : Option String) (v : PyVal)
    (t : Option String) (res : Playbook × Option String)
    (h : create_output p k v t = Except.ok res) :
    res.1.output_data = p.output_data ∧ res.1.output_variables = p.output_variables := by
  simp only [create_output] at h
  split at h
  · injection h with h
    subst h
    exact ⟨rfl, rfl⟩
  · split at h
    · injection h with h
      subst h
      exact ⟨rfl, rfl⟩
    · split at h
      · injection h with h
        subst h
        exact ⟨rfl, rfl⟩
      · split at h
        · exact create_preserves p _ v res h
        · split at h
          · exact create_preserves p _ v res h
          · injection h with h
            subst h
            exact ⟨rfl, rfl⟩

/-- One `write_output` flush step leaves the buffer and requested
variables untouched. -/
theorem writeStep_preserves (p : Playbook) (e : String × OutputRecord) (q : Playbook)
    (h : writeStep p e = Except.ok q) :
    q.output_data = p.output_data ∧ q.output_variables = p.output_variables := by
  unfold writeStep at h
  cases hco : create_output p e.2.key (e.2.value.getD PyVal.none) e.2.vtype with
  | error s => rw [hco] at h; cases h
  | ok res =>
      rw [hco] at h
      injection h with h
      subst h
      exact create_output_preserves p _ _ _ res hco

/-- Folding `writeStep` over any record list leaves the buffer and
requested variables untouched. -/
theorem foldlM_writeStep_preserves :
    ∀ (l : List (String × OutputRecord)) (p q : Playbook),
      l.foldlM writeStep p = Except.ok q →
      q.output_data = p.output_data ∧ q.output_variables = p.output_variables := by
  intro l
  induction l with
  | nil =>
      intro p q h
      injection h with h
      subst h
      exact ⟨rfl, rfl⟩
  | cons e l ih =>
      intro p q h
      rw [List.foldlM_cons] at h
      cases hw : writeStep p e with
      | error s => rw [hw] at h; cases h
      | ok p1 =>
          rw [hw] at h
          replace h : l.foldlM writeStep p1 = Except.ok q := h
          obtain ⟨h1, h2⟩ := writeStep_preserves p e p1 hw
          obtain ⟨h3, h4⟩ := ih p1 q h
          exact ⟨h3.trans h1, h4.trans h2⟩

/-- C5: `write_output` flushes every buffered output record through one
`create_output(key, value, type)` call each, in the buffer insertion
order (it is exactly the left fold of `writeStep` over `output_data`),
and leaves the buffer and the requested-output list unchanged, so a
second call re-writes exactly the same accumulated records. -/
theorem c5_write_output_frame (pb : Playbook) :
    write_output pb = pb.output_data.foldlM writeStep pb
  ∧ ∀ pb2, write_output pb = Except.ok pb2 →
      pb2.output_data = pb.output_data
    ∧ pb2.output_variables = pb.output_variables
    ∧ write_output pb2 = pb.output_data.foldlM writeStep pb2 := by
  refine ⟨rfl, ?_⟩
  intro pb2 h
  obtain ⟨h1, h2⟩ := foldlM_writeStep_preserves pb.output_data pb pb2 h
  refine ⟨h1, h2, ?_⟩
  show pb2.output_data.foldlM writeStep pb2 = pb.output_data.foldlM writeStep pb2
  rw [h1]

/-- C5, witness: one flush of a concrete buffered record writes the
store, preserves the buffer, and a second flush folds over the very same
record list. -/
theorem c5_witness :
    write_output pbW = Except.ok pbW2
  ∧ pbW2.output_data = pbW.output_data
  ∧ pbW2.output_variables = pbW.output_variables
  ∧ write_output pbW2 = pbW.output_data.foldlM writeStep pbW2 := by
  have h := (c5_write_output_frame pbW).2 pbW2 rfl
  exact ⟨rfl, h.1, h.2.1, h.2.2⟩

/-- C1: the `create_output` gate — a no-op returning `None` when the
output-request index is empty (no outputs requested), when the key is
`None`, or when the value is `None`; otherwise the stripped key is
looked up as the composite `"<key>-<type>"` in the by-name-type index
first, a bare-name match is accepted only when the caller supplied no
type, any other case is a silent no-op, and a match delegates to
`create` with the full requested variable string as the write key. -/
theorem c1_create_output_gate (pb : Playbook) (key : Option String) (value : PyVal)
    (vt : Option String) :
    (output_variables_by_type pb = [] →
        create_output pb key value vt = Except.ok (pb, Option.none))
  ∧ (key = Option.none → create_output pb key value vt = Except.ok (pb, Option.none))
  ∧ (isNoneVal value = true → create_output pb key value vt = Except.ok (pb, Option.none))
  ∧ (∀ k, key = some k → isNoneVal value = false → output_variables_by_type pb ≠ [] →
      (∀ v, dictGet (pyStrip k ++ "-" ++ fstrOpt vt) (output_variables_by_type pb) = some v →
          create_output pb key value vt = create pb (some v) value)
    ∧ (dictGet (pyStrip k ++ "-" ++ fstrOpt vt) (output_variables_by_type pb) = Option.none →
        (∀ v, dictGet (pyStrip k) (output_variables_by_name pb) = some v →
            vt = Option.none → create_output pb key value vt = create pb (some v) value)
      ∧ (((dictGet (pyStrip k) (output_variables_by_name pb)).isSome = false ∨
            vt ≠ Option.none) →
          create_output pb key value vt = Except.ok (pb, Option.none)))) := by
  refine ⟨?_, ?_, ?_, ?_⟩
  · intro h
    simp only [create_output]
    rw [if_pos h]
  · intro h
    subst h
    by_cases hbt : output_variables_by_type pb = [] <;> simp [create_output, hbt]
  · intro hv
    by_cases hbt : output_variables_by_type pb = []
    · simp [create_output, hbt]
    · cases key with
      | none => simp [create_output, hbt]
      | some k => simp [create_output, hbt, hv]
  · intro k hk hnv hbt
    subst hk
    constructor
    · intro v hget
      simp only [create_output]
      rw [if_neg hbt]
      simp only [hnv, Bool.false_eq_true, if_false, hget]
    · intro hmiss
      constructor
      · intro v hname hvt
        subst hvt
        simp only [create_output]
        rw [if_neg hbt]
        simp only [hnv, Bool.false_eq_true, if_false, hmiss, hname]
      · intro hcase
        simp only [create_output]
        rw [if_neg hbt]
        simp only [hnv, Bool.false_eq_true, if_false, hmiss]
        rcases hcase with hnone | hsome
        · cases hn : dictGet (pyStrip k) (output_variables_by_name pb) with
          | none => cases vt <;> simp [hn]
          | some v => rw [hn] at hnone; cases hnone
        · cases vt with
          | none => exact absurd rfl hsome
          | some t =>
              cases hn : dictGet (pyStrip k) (output_variables_by_name pb) <;> simp [hn]

/-- C1, witness: the gate applied at concrete inputs — empty request
index, null key, null value, an exact name-type match writing through
the full requested variable string, a bare-name match without a caller
type, and the silent no-op when the supplied type matches nothing. -/
theorem c1_witness :
    create_output pb0 (some "x") (PyVal.str "v") (some "String") = Except.ok (pb0, Option.none)
  ∧ create_output pbReq Option.none (PyVal.str "v") (some "String") =
      Except.ok (pbReq, Option.none)
  ∧ create_output pbReq (some "x") PyVal.none (some "String") = Except.ok (pbReq, Option.none)
  ∧ create_output pbReq (some "x") (PyVal.str "v") (some "String") =
      create pbReq (some "#App:1:x!String") (PyVal.str "v")
  ∧ create_output pbReq (some "y") (PyVal.str "v") Option.none =
      create pbReq (some "#App:2:y!StringArray") (PyVal.str "v")
  ∧ create_output pbReq (some "x") (PyVal.str "v") (some "Binary") =
      Except.ok (pbReq, Option.none) := by
  refine ⟨?_, ?_, ?_, ?_, ?_, ?_⟩
  · exact (c1_create_output_gate pb0 (some "x") (PyVal.str "v") (some "String")).1 rfl
  · exact (c1_create_output_gate pbReq Option.none (PyVal.str "v") (some "String")).2.1 rfl
  · exact (c1_create_output_gate pbReq (some "x") PyVal.none (some "String")).2.2.1 rfl
  · exact ((c1_create_output_gate pbReq (some "x") (PyVal.str "v") (some "String")).2.2.2 "x"
      rfl rfl (by decide)).1 "#App:1:x!String" (by decide)
  · exact (((c1_create_output_gate pbReq (some "y") (PyVal.str "v") Option.none).2.2.2 "y"
      rfl rfl (by decide)).2 (by decide)).1 "#App:2:y!StringArray" (by decide) rfl
  · exact (((c1_create_output_gate pbReq (some "x") (PyVal.str "v") (some "Binary")).2.2.2 "x"
      rfl rfl (by decide)).2 (by decide)).2 (Or.inr (by decide))

/-- C3, counterexample: a non-null plain literal key that does not match
the variable grammar makes `create` raise (the `None` returned by
`parse_variable` is subscripted at `type`, playbook.py 132-133) instead
of dispatching to a write path, so `create` does not "never raise for a
non-null key". -/
theorem c3_counterexample :
    (some "plain" ≠ (Option.none : Option String))
  ∧ parseVariableCore (pyStrip "plain") = Option.none
  ∧ create pb0 (some "plain") (PyVal.str "v") =
      Except.error "TypeError: NoneType object is not subscriptable" :=
  ⟨by decide, by decide, rfl⟩

/-- C3 (amended): `create` with a null key is a no-op returning null;
otherwise the key is stripped and parsed with the variable grammar — a
key that does not match raises a `TypeError` (the null parse result is
subscripted) — and the parsed type dispatches to the scalar-write path
when in the single set, the array-write path when in the array set, and
the raw-write path otherwise, returning the write acknowledgment; in
particular `create` never raises for keys matching the grammar. -/
theorem c3_create_dispatch (pb : Playbook) (key : Option String) (value : PyVal) :
    (key = Option.none → create pb key value = Except.ok (pb, Option.none))
  ∧ (∀ k, key = some k →
      (parse_variable (some (pyStrip k)) = Option.none →
          create pb key value =
            Except.error "TypeError: NoneType object is not subscriptable")
    ∧ (∀ pv, parse_variable (some (pyStrip k)) = some pv →
        (pv.vtype ∈ variable_single_types →
            create pb key value =
              Except.ok ((_create pb (pyStrip k) value).1, some (_create pb (pyStrip k) value).2))
      ∧ (pv.vtype ∉ variable_single_types → pv.vtype ∈ variable_array_types →
            create pb key value =
              Except.ok ((_create_array pb (pyStrip k) value).1,
                some (_create_array pb (pyStrip k) value).2))
      ∧ (pv.vtype ∉ variable_single_types → pv.vtype ∉ variable_array_types →
            create pb key value =
              Except.ok ((create_raw pb (pyStrip k) value).1,
                some (create_raw pb (pyStrip k) value).2)))) := by
  have hidem : ∀ k : String, parse_variable (some (pyStrip k)) =
      parseVariableCore (pyStrip k) := by
    intro k
    show parseVariableCore (pyStrip (pyStrip k)) = parseVariableCore (pyStrip k)
    rw [pyStrip_idem]
  have hceq : ∀ k0 : String, create pb (some k0) value =
      (match parseVariableCore (pyStrip k0) with
       | Option.none => Except.error "TypeError: NoneType object is not subscriptable"
       | some pv =>
         if pv.vtype ∈ variable_single_types then
           Except.ok ((_create pb (pyStrip k0) value).1, some (_create pb (pyStrip k0) value).2)
         else if pv.vtype ∈ variable_array_types then
           Except.ok ((_create_array pb (pyStrip k0) value).1,
             some (_create_array pb (pyStrip k0) value).2)
         else
           Except.ok ((create_raw pb (pyStrip k0) value).1,
             some (create_raw pb (pyStrip k0) value).2)) := by
    intro k0
    simp only [create, parse_variable]
    rw [pyStrip_idem, pyStrip_idem]
  refine ⟨?_, ?_⟩
  · intro h
    subst h
    rfl
  · intro k hk
    subst hk
    constructor
    · intro h
      rw [hidem] at h
      rw [hceq k, h]
    · intro pv h
      rw [hidem] at h
      refine ⟨?_, ?_, ?_⟩
      · intro hsingle
        rw [hceq k, h]
        simp [hsingle]
      · intro hns harr
        rw [hceq k, h]
        simp [hns, harr]
      · intro hns hna
        rw [hceq k, h]
        simp [hns, hna]

/-- C3, witness: the amended dispatch applied at concrete keys — a null
key, a single-type key, an array-type key and a custom-type key routed
to the raw path. -/
theorem c3_witness :
    create pb0 Option.none (PyVal.str "v") = Except.ok (pb0, Option.none)
  ∧ create pb0 (some "#App:1:k!String") (PyVal.str "v") =
      Except.ok ((_create pb0 "#App:1:k!String" (PyVal.str "v")).1,
        some (_create pb0 "#App:1:k!String" (PyVal.str "v")).2)
  ∧ create pb0 (some "#App:2:k!BinaryArray") (PyVal.str "v") =
      Except.ok ((_create_array pb0 "#App:2:k!BinaryArray" (PyVal.str "v")).1,
        some (_create_array pb0 "#App:2:k!BinaryArray" (PyVal.str "v")).2)
  ∧ create pb0 (some "#App:3:k!Custom") (PyVal.str "v") =
      Except.ok ((create_raw pb0 "#App:3:k!Custom" (PyVal.str "v")).1,
        some (create_raw pb0 "#App:3:k!Custom" (PyVal.str "v")).2) := by
  refine ⟨?_, ?_, ?_, ?_⟩
  · exact (c3_create_dispatch pb0 Option.none (PyVal.str "v")).1 rfl
  · exact (((c3_create_dispatch pb0 (some "#App:1:k!String") (PyVal.str "v")).2
      "#App:1:k!String" rfl).2 ⟨"#App:1:k!String", "1", "k", "String"⟩ (by decide)).1 (by decide)
  · exact (((c3_create_dispatch pb0 (some "#App:2:k!BinaryArray") (PyVal.str "v")).2
      "#App:2:k!BinaryArray" rfl).2 ⟨"#App:2:k!BinaryArray", "2", "k", "BinaryArray"⟩
      (by decide)).2.1 (by decide) (by decide)
  · exact (((c3_create_dispatch pb0 (some "#App:3:k!Custom") (PyVal.str "v")).2
      "#App:3:k!Custom" rfl).2 ⟨"#App:3:k!Custom", "3", "k", "Custom"⟩
      (by decide)).2.2 (by decide) (by decide)

/-- C7: every strict typed creator raises the type-mismatch
`RuntimeError` naming its expected type when the type declared by the
key (as classified from the key string) differs from the expected one —
for `create_tc_entity_array`, when it is none of the three accepted
related types; in particular `create_string` on a key declaring
`Binary` fails with this error. -/
theorem c7_strict_creators (pb : Playbook) (key : String) (value : PyVal) :
    (variable_type (PyVal.str key) ≠ "Binary" →
        create_binary pb key value = Except.error (typeMismatchMsg key "Binary"))
  ∧ (variable_type (PyVal.str key) ≠ "BinaryArray" →
        create_binary_array pb key value = Except.error (typeMismatchMsg key "BinaryArray"))
  ∧ (variable_type (PyVal.str key) ≠ "KeyValue" →
        create_key_value pb key value = Except.error (typeMismatchMsg key "KeyValue"))
  ∧ (variable_type (PyVal.str key) ≠ "KeyValueArray" →
        create_key_value_array pb key value =
          Except.error (typeMismatchMsg key "KeyValueArray"))
  ∧ (variable_type (PyVal.str key) ≠ "String" →
        create_string pb key value = Except.error (typeMismatchMsg key "String"))
  ∧ (variable_type (PyVal.str key) ≠ "StringArray" →
        create_string_array pb key value = Except.error (typeMismatchMsg key "StringArray"))
  ∧ (variable_type (PyVal.str key) ≠ "TCEntity" →
        create_tc_entity pb key value = Except.error (typeMismatchMsg key "TCEntity"))
  ∧ (variable_type (PyVal.str key) ∉ tcEntityArrayAccepted →
        create_tc_entity_array pb key value = Except.error
          (typeMismatchMsg key "[TCEntityArray, TCEnhancedEntity, TCEnhancedEntityArray]")) := by
  refine ⟨?_, ?_, ?_, ?_, ?_, ?_, ?_, ?_⟩ <;> intro h
  · simp only [create_binary]
    rw [if_pos h]
  · simp only [create_binary_array]
    rw [if_pos h]
  · simp only [create_key_value]
    rw [if_pos h]
  · simp only [create_key_value_array]
    rw [if_pos h]
  · simp only [create_string]
    rw [if_pos h]
  · simp only [create_string_array]
    rw [if_pos h]
  · simp only [create_tc_entity]
    rw [if_pos h]
  · simp only [create_tc_entity_array]
    rw [if_pos h]

/-- C7, witness: `create_string` on a key declaring `Binary` and
`create_tc_entity_array` on a key declaring `String` both fail with the
type-mismatch error naming the expected type. -/
theorem c7_witness :
    create_string pb0 "#App:1:k!Binary" (PyVal.str "v") =
      Except.error (typeMismatchMsg "#App:1:k!Binary" "String")
  ∧ create_tc_entity_array pb0 "#App:1:k!String" (PyVal.list []) = Except.error
      (typeMismatchMsg "#App:1:k!String"
        "[TCEntityArray, TCEnhancedEntity, TCEnhancedEntityArray]") := by
  constructor
  · exact (c7_strict_creators pb0 "#App:1:k!Binary" (PyVal.str "v")).2.2.2.2.1 (by decide)
  · exact (c7_strict_creators pb0 "#App:1:k!String" (PyVal.list [])).2.2.2.2.2.2.2 (by decide)

/-- C6, counterexample: a non-string key read with `array = true` is not
returned unchanged — the array-coercion block wraps it in a singleton
list — so the unconditional "returns key itself unchanged" part of the
claim fails. -/
theorem c6_counterexample :
    isStrVal (PyVal.int 7) = false
  ∧ read pb0 (PyVal.int 7) true true = PyVal.list [PyVal.int 7]
  ∧ PyVal.list [PyVal.int 7] ≠ PyVal.int 7 :=
  ⟨rfl, rfl, by decide⟩

/-- C6 (amended): a non-string key passes through `read` as the
pre-coercion value unchanged and is returned unchanged when
`array = false`; when `array = true` the result of the array-independent
pre-coercion computation is coerced — an already-list value unchanged, a
null value to the empty list (never a singleton of null), any other
value to a one-element list. -/
theorem c6_read_coercion (pb : Playbook) (key : PyVal) (embedded : Bool) :
    (isStrVal key = false → readValue pb key embedded = key)
  ∧ (isStrVal key = false → read pb key false embedded = key)
  ∧ (read pb key true embedded =
      (let v := readValue pb key embedded
       if isListVal v then v else if isNoneVal v then PyVal.list [] else PyVal.list [v]))
  ∧ (read pb key false embedded = readValue pb key embedded) := by
  have hpass : isStrVal key = false → readValue pb key embedded = key := by
    intro h
    cases key with
    | str s => simp [isStrVal] at h
    | none => rfl
    | int k => rfl
    | list l => rfl
  refine ⟨hpass, ?_, ?_, ?_⟩
  · intro h
    show readValue pb key embedded = key
    exact hpass h
  · show (if (true && !isListVal (readValue pb key embedded)) = true
        then if isNoneVal (readValue pb key embedded) = true
          then PyVal.list [] else PyVal.list [readValue pb key embedded]
        else readValue pb key embedded) = _
    cases hl : isListVal (readValue pb key embedded) <;>
      cases hn : isNoneVal (readValue pb key embedded) <;>
        simp [hl, hn]
  · rfl

/-- C6, witness: the amended read/coercion behavior at concrete inputs —
a non-string scalar key unchanged at `array = false`, a null result as
the empty list, a scalar result as a singleton and a list result
unchanged at `array = true`. -/
theorem c6_witness :
    read pb0 (PyVal.int 7) false true = PyVal.int 7
  ∧ read pb0 PyVal.none true true = PyVal.list []
  ∧ read pb0 (PyVal.int 7) true true = PyVal.list [PyVal.int 7]
  ∧ read pb0 (PyVal.list [PyVal.int 1]) true true = PyVal.list [PyVal.int 1] := by
  refine ⟨?_, ?_, ?_, ?_⟩
  · exact (c6_read_coercion pb0 (PyVal.int 7) true).2.1 rfl
  · exact ((c6_read_coercion pb0 PyVal.none true).2.2.1).trans (by rfl)
  · exact ((c6_read_coercion pb0 (PyVal.int 7) true).2.2.1).trans (by rfl)
  · exact ((c6_read_coercion pb0 (PyVal.list [PyVal.int 1]) true).2.2.1).trans (by rfl)

/-- C8: on a string key whose stripped form does not match the variable
grammar (so its inferred default type is `String`), `read` applies
exactly the two literal-escaping substitutions — backslash-s not
preceded by a backslash becomes a space, then double-backslash-s becomes
a literal backslash-s — to the unstripped literal before any embedded
resolution. -/
theorem c8_literal_escaping (pb : Playbook) (s : String) (emb : Bool)
    (h : parseVariableCore (pyStrip s) = Option.none) :
    readValue pb (PyVal.str s) emb =
      (if emb
       then embedF pb embedFuel
         (PyVal.str (String.mk (subDoubleSlashS (subSlashS Option.none s.toList))))
       else PyVal.str (String.mk (subDoubleSlashS (subSlashS Option.none s.toList)))) := by
  have hvm : variableMatchB (pyStrip s) = false := by
    simp [variableMatchB, h]
  have hvt : variable_type (PyVal.str (pyStrip s)) = "String" := by
    simp only [variable_type]
    rw [pyStrip_idem, h]
  simp only [readValue]
  rw [hvm]
  simp only [Bool.false_eq_true, if_false]
  rw [hvt]
  simp only [if_pos]

/-- C8, witness: the literal with a single backslash before `s` reads as
a space, the escaped double-backslash form reads as the literal
backslash-s. -/
theorem c8_witness :
    read pb0 (PyVal.str "a\\sb") false true = PyVal.str "a b"
  ∧ read pb0 (PyVal.str "a\\\\sb") false true = PyVal.str "a\\sb" := by
  constructor
  · have h := c8_literal_escaping pb0 "a\\sb" true (by decide)
    show readValue pb0 (PyVal.str "a\\sb") true = PyVal.str "a b"
    rw [h]
    rfl
  · have h := c8_literal_escaping pb0 "a\\\\sb" true (by decide)
    show readValue pb0 (PyVal.str "a\\\\sb") true = PyVal.str "a\\sb"
    rw [h]
    rfl
